import Mathlib

/-!
Shallow embedding of the response-normalisation and error-classification
layer of an MCP wrapper around the DeepL translation SDK
(`src/mcp_deepl/api_client.py` and `src/mcp_deepl/server.py`).

The vendor SDK (the `deepl` Python package) is external to the repository;
its calls are modelled as oracle parameters and its exception hierarchy as a
closed inductive of the sibling subclasses the wrapper inspects.  Python
truthiness of optional strings (`if not s`, `s or d`) is modelled explicitly.
-/

namespace McpDeepl

/-- The vendor exception taxonomy inspected by the wrapper: the three sibling
subclasses of `deepl.DeepLException` that the `isinstance` chains test for,
plus a catch-all for every other `DeepLException` subtype.  Each carries the
string produced by Python `str(e)`. -/
inductive DeepLException where
  | authorization (msg : String)
  | quotaExceeded (msg : String)
  | tooManyRequests (msg : String)
  | other (msg : String)
  deriving DecidableEq, Repr

/-- Python `str(e)` on a vendor exception. -/
def DeepLException.message : DeepLException → String
  | .authorization m => m
  | .quotaExceeded m => m
  | .tooManyRequests m => m
  | .other m => m

/-- `DeepLAPIError(status, message)` from `api_client.py` (details omitted:
every raise site in the file passes only status and message). -/
structure DeepLAPIError where
  status : Nat
  message : String
  deriving DecidableEq, Repr

/-- Python truthiness of an optional string: `None` and `""` are falsy,
every other string is truthy. -/
def strTruthy : Option String → Bool
  | none => false
  | some s => !(s == "")

/-- Python `a or b` on optional strings (used for
`api_token or os.environ.get("DEEPL_API_KEY")`). -/
def pyOrStr (a b : Option String) : Option String :=
  if strTruthy a then a else b

/-- Python `n or 0` on an integer: `0` is falsy, so this is the identity
written the way the source writes it. -/
def pyOrZero (n : Int) : Int :=
  if n = 0 then 0 else n

/- ### Text translation (`translate_text`, `translate_with_glossary`) -/

/-- One vendor `TextResult` as consumed by the wrapper: the two attributes it
reads, `detected_source_lang` and `text`. -/
structure VendorTextResult where
  detected_source_lang : Option String
  text : String
  deriving DecidableEq, Repr

/-- The shape returned by the SDK call `translator.translate_text`: a single
result object for a single input string, a list for a batch input. -/
inductive VendorTranslateResult where
  | single (r : VendorTextResult)
  | batch (rs : List VendorTextResult)
  deriving DecidableEq, Repr

/-- The wrapper input: `text: str | list[str]`. -/
inductive TextInput where
  | single (s : String)
  | batch (ts : List String)
  deriving DecidableEq, Repr

/-- `Translation` response model (`api_models.py`). -/
structure Translation where
  detected_source_language : Option String
  text : String
  deriving DecidableEq, Repr

/-- `TranslationResponse` response model (`api_models.py`). -/
structure TranslationResponse where
  translations : List Translation
  deriving DecidableEq, Repr

/-- Field projection applied to each vendor result object in
`translate_text` and `translate_with_glossary`. -/
def mkTranslation (r : VendorTextResult) : Translation :=
  { detected_source_language := r.detected_source_lang, text := r.text }

/-- The `isinstance(result, list)` branch of `translate_text` and
`translate_with_glossary`: a list is mapped element by element, a single
result object is wrapped into a one-element list. -/
def normalizeTranslations : VendorTranslateResult → List Translation
  | .single r => [mkTranslation r]
  | .batch rs => rs.map mkTranslation

/-- Model of the SDK call `translator.translate_text` applied to a
`str | list[str]` argument, parameterised by the per-string vendor behaviour
`f` (all other forwarded parameters are absorbed into `f`).  Per the SDK
contract it returns one result object for a single string and one result per
element, in input order, for a list. -/
def vendorTranslate (f : String → VendorTextResult) : TextInput → VendorTranslateResult
  | .single s => .single (f s)
  | .batch ts => .batch (ts.map f)

/-- The `split_sentences` conversion at the top of `translate_text`:
`split_sentences_param` starts as `None` and is set only for the three
recognised values `"0"`, `"1"`, `"nonewlines"`. -/
def splitSentencesParam (split_sentences : String) : Option String :=
  if split_sentences = "0" then some "0"
  else if split_sentences = "1" then some "1"
  else if split_sentences = "nonewlines" then some "nonewlines"
  else none

/-- `DeepLClient.translate_text`.  The vendor oracle `f` takes the forwarded
`split_sentences_param` and the input string; `vendorFails` is `some e` when
the vendor call raises `e`.  The error branch mirrors the source: status
starts at 500, then `isinstance` tests set 403 / 456 / 429. -/
def translate_text (f : Option String → String → VendorTextResult)
    (vendorFails : Option DeepLException) (input : TextInput)
    (split_sentences : String) : Except DeepLAPIError TranslationResponse :=
  match vendorFails with
  | some e =>
    let status : Nat :=
      match e with
      | .authorization _ => 403
      | .quotaExceeded _ => 456
      | .tooManyRequests _ => 429
      | .other _ => 500
    .error ⟨status, e.message⟩
  | none =>
    let result := vendorTranslate (f (splitSentencesParam split_sentences)) input
    .ok ⟨normalizeTranslations result⟩

/-- `DeepLClient.translate_with_glossary`.  Same shaping as `translate_text`;
its `except` block tests only `AuthorizationException` and
`QuotaExceededException` (there is no `TooManyRequestsException` branch in
the source), everything else keeps the initial 500. -/
def translate_with_glossary (f : String → VendorTextResult)
    (vendorFails : Option DeepLException) (input : TextInput) :
    Except DeepLAPIError TranslationResponse :=
  match vendorFails with
  | some e =>
    let status : Nat :=
      match e with
      | .authorization _ => 403
      | .quotaExceeded _ => 456
      | _ => 500
    .error ⟨status, e.message⟩
  | none =>
    .ok ⟨normalizeTranslations (vendorTranslate f input)⟩

/- ### Language detection (`detect_language`) -/

/-- `LanguageDetectionResponse` response model (`api_models.py`). -/
structure LanguageDetectionResponse where
  detected_language : Option String
  text : String
  deriving DecidableEq, Repr

/-- The `detected_lang` extraction in `detect_language`: starts as `None`;
for a list result it is taken from the first element when the list is
non-empty, otherwise from the single result object. -/
def detectedLangOf : VendorTranslateResult → Option String
  | .batch [] => none
  | .batch (r :: _) => r.detected_source_lang
  | .single r => r.detected_source_lang

/-- `DeepLClient.detect_language`.  The vendor oracle `v` models
`translator.translate_text(·, target_lang="EN-US")`: the wrapper applies it
to `text[:1000]` only.  Every vendor exception maps to status 500. -/
def detect_language (v : String → Except DeepLException VendorTranslateResult)
    (text : String) : Except DeepLAPIError LanguageDetectionResponse :=
  match v (text.take 1000) with
  | .error e => .error ⟨500, e.message⟩
  | .ok result =>
    .ok { detected_language := detectedLangOf result,
          text := if text.length > 100 then text.take 100 ++ "..." else text }

/- ### Language listing (`list_languages`) -/

/-- A vendor language descriptor as consumed by the wrapper: `code`, `name`,
and the result of `getattr(lang, "supports_formality", None)` — `none`
models a missing attribute (the case for source-language descriptors). -/
structure VendorLanguage where
  code : String
  name : String
  supports_formality : Option Bool
  deriving DecidableEq, Repr

/-- `Language` response model (`api_models.py`). -/
structure Language where
  language : String
  name : String
  supports_formality : Option Bool
  deriving DecidableEq, Repr

/-- `LanguagesResponse` response model (`api_models.py`). -/
structure LanguagesResponse where
  languages : List Language
  deriving DecidableEq, Repr

/-- The per-descriptor projection in `list_languages`. -/
def projectLanguage (lang : VendorLanguage) : Language :=
  { language := lang.code, name := lang.name,
    supports_formality := lang.supports_formality }

/-- `DeepLClient.list_languages`.  `sourceLangs` and `targetLangs` model the
results of `get_source_languages()` / `get_target_languages()`; the source
list is queried exactly when `language_type == "source"`, any other value
falls to the `else` branch.  Every vendor exception maps to 500. -/
def list_languages (sourceLangs targetLangs : List VendorLanguage)
    (vendorFails : Option DeepLException) (language_type : String) :
    Except DeepLAPIError LanguagesResponse :=
  match vendorFails with
  | some e => .error ⟨500, e.message⟩
  | none =>
    let langs := if language_type = "source" then sourceLangs else targetLangs
    .ok ⟨langs.map projectLanguage⟩

/- ### Usage (`get_usage`) -/

/-- A nested vendor usage counter (`usage.character` / `usage.document` /
`usage.team_document` when present).  Per the vendor contract a present
counter carries its `count`/`limit` pair. -/
structure UsageDetail where
  count : Int
  limit : Int
  deriving DecidableEq, Repr

/-- The vendor usage object: up to three optional nested counters. -/
structure VendorUsage where
  character : Option UsageDetail
  document : Option UsageDetail
  team_document : Option UsageDetail
  deriving DecidableEq, Repr

/-- `UsageResponse` response model (`api_models.py`). -/
structure UsageResponse where
  character_count : Int
  character_limit : Int
  document_count : Option Int
  document_limit : Option Int
  team_document_count : Option Int
  team_document_limit : Option Int
  deriving DecidableEq, Repr

/-- The success shaping of `get_usage`: character fields start at 0 and are
set (via `count or 0` / `limit or 0`) only when `usage.character` is present;
document fields are `x.count if x else None`. -/
def usageResponseOf (usage : VendorUsage) : UsageResponse :=
  let character_count : Int :=
    match usage.character with
    | some c => pyOrZero c.count
    | none => 0
  let character_limit : Int :=
    match usage.character with
    | some c => pyOrZero c.limit
    | none => 0
  { character_count := character_count,
    character_limit := character_limit,
    document_count := usage.document.map (fun d => d.count),
    document_limit := usage.document.map (fun d => d.limit),
    team_document_count := usage.team_document.map (fun d => d.count),
    team_document_limit := usage.team_document.map (fun d => d.limit) }

/-- `DeepLClient.get_usage`.  Every vendor exception maps to 500. -/
def get_usage (usage : VendorUsage) (vendorFails : Option DeepLException) :
    Except DeepLAPIError UsageResponse :=
  match vendorFails with
  | some e => .error ⟨500, e.message⟩
  | none => .ok (usageResponseOf usage)

/- ### Glossaries (`list_glossaries`, `create_glossary`, `get_glossary`,
`delete_glossary`) -/

/-- A vendor `GlossaryInfo` as consumed by the wrapper; `creation_time_iso`
models `g.creation_time.isoformat()` as the produced ISO string. -/
structure VendorGlossary where
  glossary_id : String
  name : String
  ready : Bool
  source_lang : String
  target_lang : String
  creation_time_iso : String
  entry_count : Int
  deriving DecidableEq, Repr

/-- `Glossary` response model (`api_models.py`). -/
structure Glossary where
  glossary_id : String
  name : String
  ready : Bool
  source_lang : String
  target_lang : String
  creation_time : String
  entry_count : Int
  deriving DecidableEq, Repr

/-- The per-glossary projection used by `list_glossaries`, `create_glossary`
and `get_glossary`. -/
def mkGlossaryModel (g : VendorGlossary) : Glossary :=
  { glossary_id := g.glossary_id, name := g.name, ready := g.ready,
    source_lang := g.source_lang, target_lang := g.target_lang,
    creation_time := g.creation_time_iso, entry_count := g.entry_count }

/-- `GlossariesResponse` response model (`api_models.py`). -/
structure GlossariesResponse where
  glossaries : List Glossary
  deriving DecidableEq, Repr

/-- `DeepLClient.list_glossaries`.  Every vendor exception maps to 500. -/
def list_glossaries (gs : List VendorGlossary)
    (vendorFails : Option DeepLException) :
    Except DeepLAPIError GlossariesResponse :=
  match vendorFails with
  | some e => .error ⟨500, e.message⟩
  | none => .ok ⟨gs.map mkGlossaryModel⟩

/-- `DeepLClient.create_glossary`: the created vendor glossary `g` is
projected; every vendor exception maps to 500. -/
def create_glossary (g : VendorGlossary)
    (vendorFails : Option DeepLException) : Except DeepLAPIError Glossary :=
  match vendorFails with
  | some e => .error ⟨500, e.message⟩
  | none => .ok (mkGlossaryModel g)

/-- `DeepLClient.get_glossary`.  Every vendor exception maps to 500. -/
def get_glossary (g : VendorGlossary)
    (vendorFails : Option DeepLException) : Except DeepLAPIError Glossary :=
  match vendorFails with
  | some e => .error ⟨500, e.message⟩
  | none => .ok (mkGlossaryModel g)

/-- The `{"success": True, "glossary_id": glossary_id}` dict returned by
`delete_glossary`. -/
structure DeleteGlossaryResult where
  success : Bool
  glossary_id : String
  deriving DecidableEq, Repr

/-- `DeepLClient.delete_glossary`.  Every vendor exception maps to 500. -/
def delete_glossary (glossary_id : String)
    (vendorFails : Option DeepLException) :
    Except DeepLAPIError DeleteGlossaryResult :=
  match vendorFails with
  | some e => .error ⟨500, e.message⟩
  | none => .ok ⟨true, glossary_id⟩

/- ### Documents (`upload_document`, `get_document_status`,
`download_translated_document`) -/

/-- `DocumentUploadResponse` response model (`api_models.py`). -/
structure DocumentUploadResponse where
  document_id : String
  document_key : String
  deriving DecidableEq, Repr

/-- Outcome of the body of `upload_document`: the `open(document_path)` call
raising `FileNotFoundError`, the vendor upload raising a `DeepLException`,
or success with a vendor document handle. -/
inductive UploadOutcome where
  | fileNotFound
  | vendorError (e : DeepLException)
  | uploaded (document_id document_key : String)
  deriving DecidableEq, Repr

/-- `DeepLClient.upload_document`: `FileNotFoundError` maps to 404 with the
`"Document not found: "` message, every vendor exception maps to 500
(`FileNotFoundError` is not a `DeepLException`, so the two handlers are
disjoint and their order is immaterial). -/
def upload_document (outcome : UploadOutcome) (document_path : String) :
    Except DeepLAPIError DocumentUploadResponse :=
  match outcome with
  | .fileNotFound => .error ⟨404, "Document not found: " ++ document_path⟩
  | .vendorError e => .error ⟨500, e.message⟩
  | .uploaded did dkey => .ok ⟨did, dkey⟩

/-- A vendor document status as consumed by the wrapper: the `done` flag and
the optional `error_message`, `seconds_remaining`, `billed_characters`. -/
structure VendorDocumentStatus where
  done : Bool
  error_message : Option String
  seconds_remaining : Option Int
  billed_characters : Option Int
  deriving DecidableEq, Repr

/-- The status derivation in `get_document_status`: `status_str` starts as
`"queued"`; `if status.done` → `"done"`, `elif status.error_message` (Python
truthiness: an empty string is falsy) → `"error"`, `elif
status.seconds_remaining is not None` → `"translating"`. -/
def documentStatusStr (st : VendorDocumentStatus) : String :=
  if st.done then "done"
  else if strTruthy st.error_message then "error"
  else if st.seconds_remaining.isSome then "translating"
  else "queued"

/-- `DocumentStatusResponse` response model (`api_models.py`), with the
status enum kept as its string value. -/
structure DocumentStatusResponse where
  document_id : String
  status : String
  seconds_remaining : Option Int
  billed_characters : Option Int
  error_message : Option String
  deriving DecidableEq, Repr

/-- `str(status.error_message) if status.error_message else None`. -/
def pyStrOrNone (o : Option String) : Option String :=
  if strTruthy o then o else none

/-- `DeepLClient.get_document_status`.  Every vendor exception maps
to 500. -/
def get_document_status (vendorFails : Option DeepLException)
    (document_id document_key : String) (st : VendorDocumentStatus) :
    Except DeepLAPIError DocumentStatusResponse :=
  match vendorFails with
  | some e => .error ⟨500, e.message⟩
  | none =>
    .ok { document_id := document_id,
          status := documentStatusStr st,
          seconds_remaining := st.seconds_remaining,
          billed_characters := st.billed_characters,
          error_message := pyStrOrNone st.error_message }

/-- `DocumentDownloadResponse` response model (`api_models.py`). -/
structure DocumentDownloadResponse where
  success : Bool
  document_id : String
  content_type : Option String
  size : Int
  note : String
  deriving DecidableEq, Repr

/-- The two download branches of `download_translated_document`: to a file
at `output_path` (reported size is the resulting file size) or to a memory
buffer (reported size is the buffer length). -/
inductive DownloadTarget where
  | toFile (output_path : String) (file_size : Int)
  | toMemory (buffer_size : Int)
  deriving DecidableEq, Repr

/-- `DeepLClient.download_translated_document`.  Every vendor exception maps
to 500; both success branches report the fixed placeholder content type. -/
def download_translated_document (vendorFails : Option DeepLException)
    (document_id document_key : String) (target : DownloadTarget) :
    Except DeepLAPIError DocumentDownloadResponse :=
  match vendorFails with
  | some e => .error ⟨500, e.message⟩
  | none =>
    match target with
    | .toFile p sz =>
      .ok ⟨true, document_id, some "application/octet-stream", sz,
           "Document saved to " ++ p⟩
    | .toMemory sz =>
      .ok ⟨true, document_id, some "application/octet-stream", sz,
           "Document downloaded to memory buffer"⟩

/- ### Client construction (`DeepLClient.__init__`, `server.get_client`) -/

/-- The vendor `deepl.Translator` handle: constructing it stores the token
and performs no network interaction; it is built only after the credential
check succeeds. -/
structure Translator where
  api_token : String
  deriving DecidableEq, Repr

/-- A constructed `DeepLClient`: the resolved token plus the vendor
translator handle built from it. -/
structure DeepLClient where
  api_token : String
  translator : Translator
  deriving DecidableEq, Repr

/-- `DeepLClient.__init__`: `self.api_token = api_token or
os.environ.get("DEEPL_API_KEY")`; `if not self.api_token: raise ValueError`;
only then is `deepl.Translator(self.api_token)` constructed. -/
def clientInit (api_token env_key : Option String) :
    Except String DeepLClient :=
  match pyOrStr api_token env_key with
  | some t =>
    if t = "" then .error "DEEPL_API_KEY must be provided or set in environment"
    else .ok ⟨t, ⟨t⟩⟩
  | none => .error "DEEPL_API_KEY must be provided or set in environment"

/-- `server.get_client`: module-level state `_client` starts as `None`; the
first call reads `DEEPL_API_KEY` from the environment, fails when it is
unset or empty (`if not api_token`), otherwise constructs the client and
stores it; every later call returns the stored instance.  Returns the client
together with the updated module state. -/
def get_client (env_key : Option String) (st : Option DeepLClient) :
    Except String (DeepLClient × Option DeepLClient) :=
  match st with
  | some c => .ok (c, some c)
  | none =>
    if strTruthy env_key then
      match clientInit env_key env_key with
      | .ok c => .ok (c, some c)
      | .error m => .error m
    else .error "DEEPL_API_KEY is not set - API calls will fail"

/-- The status carried by an operation result when it is a normalized
failure, `none` on success. -/
def errStatusOf {α : Type} : Except DeepLAPIError α → Option Nat
  | .error err => some err.status
  | .ok _ => none

/-- Claim C1: `translate_text` and `translate_with_glossary` return exactly
one translation for a single-text input and exactly N translations, in input
order, for an N-element batch; a single vendor result object is wrapped into
a one-element sequence. -/
theorem translate_result_shape
    (f : Option String → String → VendorTextResult)
    (g : String → VendorTextResult)
    (s : String) (ts : List String) (split : String) (r : VendorTextResult) :
    (normalizeTranslations (.single r) = [mkTranslation r]) ∧
    (translate_text f none (.single s) split
       = .ok ⟨[mkTranslation (f (splitSentencesParam split) s)]⟩) ∧
    (translate_text f none (.batch ts) split
       = .ok ⟨ts.map (fun t => mkTranslation (f (splitSentencesParam split) t))⟩) ∧
    ((ts.map (fun t => mkTranslation (f (splitSentencesParam split) t))).length
       = ts.length) ∧
    (translate_with_glossary g none (.single s) = .ok ⟨[mkTranslation (g s)]⟩) ∧
    (translate_with_glossary g none (.batch ts)
       = .ok ⟨ts.map (fun t => mkTranslation (g t))⟩) ∧
    ((ts.map (fun t => mkTranslation (g t))).length = ts.length) := by
  refine ⟨rfl, rfl, ?_, by simp, rfl, ?_, by simp⟩
  · simp [translate_text, vendorTranslate, normalizeTranslations, List.map_map,
      Function.comp]
  · simp [translate_with_glossary, vendorTranslate, normalizeTranslations,
      List.map_map, Function.comp]

/-- Claim C2 counterexample: a vendor document status carrying a present but
empty error message (`done=false`, `error_message=some ""`): the message is
present (`isSome`), yet `get_document_status` resolves the status to
`"queued"`, not `"error"`, because Python truthiness treats `""` as
absent. -/
theorem document_status_empty_error_message_counterexample :
    (VendorDocumentStatus.mk false (some "") none none).error_message.isSome = true ∧
    get_document_status none "doc-1" "key-1"
        (VendorDocumentStatus.mk false (some "") none none)
      = .ok ⟨"doc-1", "queued", none, none, none⟩ ∧
    documentStatusStr (VendorDocumentStatus.mk false (some "") none none)
      ≠ "error" := by
  refine ⟨rfl, rfl, ?_⟩
  decide

/-- Claim C2 (amended): `get_document_status` derives status by fixed
priority — `"done"` whenever the completion flag is set (regardless of the
other signals), else `"error"` whenever a non-empty error message is present
(an empty-string message counts as absent), else `"translating"` whenever a
seconds-remaining estimate exists (including zero), else `"queued"`. -/
theorem get_document_status_priority (st : VendorDocumentStatus)
    (did dkey : String) :
    (get_document_status none did dkey st
       = .ok ⟨did, documentStatusStr st, st.seconds_remaining,
              st.billed_characters, pyStrOrNone st.error_message⟩) ∧
    (st.done = true → documentStatusStr st = "done") ∧
    (st.done = false → strTruthy st.error_message = true →
       documentStatusStr st = "error") ∧
    (st.done = false → strTruthy st.error_message = false →
       st.seconds_remaining.isSome = true → documentStatusStr st = "translating") ∧
    (st.done = false → strTruthy st.error_message = false →
       st.seconds_remaining = none → documentStatusStr st = "queued") := by
  refine ⟨rfl, ?_, ?_, ?_, ?_⟩
  · intro h; simp [documentStatusStr, h]
  · intro h1 h2; simp [documentStatusStr, h1, h2]
  · intro h1 h2 h3; simp [documentStatusStr, h1, h2, h3]
  · intro h1 h2 h3; simp [documentStatusStr, h1, h2, h3]

/-- Claim C2 witness: a completed document with a stale error message and a
remaining-time estimate still resolves to `"done"`. -/
theorem get_document_status_priority_witness :
    documentStatusStr ⟨true, some "stale", some 0, some 42⟩ = "done" :=
  (get_document_status_priority ⟨true, some "stale", some 0, some 42⟩ "d" "k").2.1 rfl

/-- Claim C3 counterexample: a rate-limit (`TooManyRequestsException`)
vendor failure inside `translate_with_glossary` is normalized to status 500,
not 429 — the glossary path's `except` block has no rate-limit branch. -/
theorem glossary_rate_limit_counterexample :
    translate_with_glossary (fun t => ⟨none, t⟩)
        (some (.tooManyRequests "Too many requests")) (.single "hello")
      = .error ⟨500, "Too many requests"⟩ ∧
    translate_with_glossary (fun t => ⟨none, t⟩)
        (some (.tooManyRequests "Too many requests")) (.single "hello")
      ≠ .error ⟨429, "Too many requests"⟩ := by
  refine ⟨rfl, ?_⟩
  simp [translate_with_glossary]

/-- Claim C3 (amended): `translate_text` applies the full fine-grained
mapping (authorization → 403, quota → 456, rate limit → 429, other → 500),
while `translate_with_glossary` applies only the 403 and 456 distinctions
and maps a rate-limit exception, like any other vendor exception,
to 500. -/
theorem translation_error_status_mapping
    (f : Option String → String → VendorTextResult)
    (g : String → VendorTextResult)
    (input : TextInput) (split m : String) :
    (translate_text f (some (.authorization m)) input split = .error ⟨403, m⟩) ∧
    (translate_text f (some (.quotaExceeded m)) input split = .error ⟨456, m⟩) ∧
    (translate_text f (some (.tooManyRequests m)) input split = .error ⟨429, m⟩) ∧
    (translate_text f (some (.other m)) input split = .error ⟨500, m⟩) ∧
    (translate_with_glossary g (some (.authorization m)) input = .error ⟨403, m⟩) ∧
    (translate_with_glossary g (some (.quotaExceeded m)) input = .error ⟨456, m⟩) ∧
    (translate_with_glossary g (some (.tooManyRequests m)) input = .error ⟨500, m⟩) ∧
    (translate_with_glossary g (some (.other m)) input = .error ⟨500, m⟩) :=
  ⟨rfl, rfl, rfl, rfl, rfl, rfl, rfl, rfl⟩

/-- Claim C4: every non-translation operation maps every vendor exception
class to status 500; in particular the authorization exception that yields
403 from `translate_text` yields 500 from `list_glossaries`. -/
theorem non_translation_ops_map_to_500 (e : DeepLException)
    (f : Option String → String → VendorTextResult) (input : TextInput)
    (split m : String) (sourceLangs targetLangs : List VendorLanguage)
    (lt : String) (usage : VendorUsage) (gs : List VendorGlossary)
    (g0 : VendorGlossary) (gid did dkey text : String)
    (st : VendorDocumentStatus) (target : DownloadTarget) :
    (list_languages sourceLangs targetLangs (some e) lt = .error ⟨500, e.message⟩) ∧
    (get_usage usage (some e) = .error ⟨500, e.message⟩) ∧
    (list_glossaries gs (some e) = .error ⟨500, e.message⟩) ∧
    (create_glossary g0 (some e) = .error ⟨500, e.message⟩) ∧
    (get_glossary g0 (some e) = .error ⟨500, e.message⟩) ∧
    (delete_glossary gid (some e) = .error ⟨500, e.message⟩) ∧
    (get_document_status (some e) did dkey st = .error ⟨500, e.message⟩) ∧
    (download_translated_document (some e) did dkey target = .error ⟨500, e.message⟩) ∧
    (detect_language (fun _ => .error e) text = .error ⟨500, e.message⟩) ∧
    (translate_text f (some (.authorization m)) input split = .error ⟨403, m⟩) ∧
    (list_glossaries gs (some (.authorization m)) = .error ⟨500, m⟩) :=
  ⟨rfl, rfl, rfl, rfl, rfl, rfl, rfl, rfl, rfl, rfl, rfl⟩

/-- Claim C5: `get_usage` returns `character_count = 0` and
`character_limit = 0` (never absent) when the vendor reports no character
counter, while each document-related field is absent exactly when the
corresponding vendor sub-object is absent. -/
theorem get_usage_field_presence (usage : VendorUsage) :
    (get_usage usage none = .ok (usageResponseOf usage)) ∧
    (usage.character = none →
       (usageResponseOf usage).character_count = 0 ∧
       (usageResponseOf usage).character_limit = 0) ∧
    ((usageResponseOf usage).document_count = none ↔ usage.document = none) ∧
    ((usageResponseOf usage).document_limit = none ↔ usage.document = none) ∧
    ((usageResponseOf usage).team_document_count = none ↔
       usage.team_document = none) ∧
    ((usageResponseOf usage).team_document_limit = none ↔
       usage.team_document = none) := by
  refine ⟨rfl, ?_, ?_, ?_, ?_, ?_⟩
  · intro h
    simp [usageResponseOf, h]
  all_goals simp [usageResponseOf, Option.map_eq_none']

/-- Claim C5 witness: a document-only vendor usage record yields zero
character fields. -/
theorem get_usage_field_presence_witness :
    (usageResponseOf ⟨none, some ⟨3, 5⟩, none⟩).character_count = 0 ∧
    (usageResponseOf ⟨none, some ⟨3, 5⟩, none⟩).character_limit = 0 :=
  (get_usage_field_presence ⟨none, some ⟨3, 5⟩, none⟩).2.1 rfl

/-- Claim C6: `list_languages "source"` projects the source-language
descriptors, whose missing `supports_formality` attribute (modelled as
`none`) is carried through unpopulated; any other direction value queries
the target languages and copies `supports_formality` from the vendor
descriptor. -/
theorem list_languages_formality (sourceLangs targetLangs : List VendorLanguage)
    (lt : String) :
    (list_languages sourceLangs targetLangs none "source"
       = .ok ⟨sourceLangs.map projectLanguage⟩) ∧
    ((∀ l ∈ sourceLangs, l.supports_formality = none) →
       ∀ entry ∈ sourceLangs.map projectLanguage,
         entry.supports_formality = none) ∧
    (lt ≠ "source" →
       list_languages sourceLangs targetLangs none lt
         = .ok ⟨targetLangs.map projectLanguage⟩) ∧
    (∀ l : VendorLanguage,
       (projectLanguage l).supports_formality = l.supports_formality) := by
  refine ⟨rfl, ?_, ?_, fun _ => rfl⟩
  · intro h entry hm
    rw [List.mem_map] at hm
    obtain ⟨l, hl, rfl⟩ := hm
    simp [projectLanguage, h l hl]
  · intro h
    simp [list_languages, h]

/-- Claim C6 witness: a source listing with a formality-less descriptor and
a target listing populated from the vendor descriptor. -/
theorem list_languages_formality_witness :
    list_languages [⟨"EN", "English", none⟩] [⟨"DE", "German", some true⟩]
        none "target"
      = .ok ⟨[⟨"DE", "German", some true⟩]⟩ :=
  (list_languages_formality [⟨"EN", "English", none⟩]
    [⟨"DE", "German", some true⟩] "target").2.2.1 (by decide)

/-- Claim C7: constructing the client with no credential passed and none in
the environment fails with the configuration error before the vendor
translator handle is built (the error branch never constructs a
`Translator`); with a credential available, the first `get_client` call
constructs the client, stores it, and every later call returns the stored
instance unchanged. -/
theorem client_credential_and_reuse (env : Option String) (c : DeepLClient)
    (t : String) :
    (clientInit none none
       = .error "DEEPL_API_KEY must be provided or set in environment") ∧
    (clientInit (some "") none
       = .error "DEEPL_API_KEY must be provided or set in environment") ∧
    (get_client none none = .error "DEEPL_API_KEY is not set - API calls will fail") ∧
    (get_client (some "") none
       = .error "DEEPL_API_KEY is not set - API calls will fail") ∧
    (get_client env (some c) = .ok (c, some c)) ∧
    (t ≠ "" →
       get_client (some t) none
         = .ok (⟨t, ⟨t⟩⟩, some (⟨t, ⟨t⟩⟩ : DeepLClient)) ∧
       get_client env (some (⟨t, ⟨t⟩⟩ : DeepLClient))
         = .ok (⟨t, ⟨t⟩⟩, some (⟨t, ⟨t⟩⟩ : DeepLClient))) := by
  refine ⟨rfl, rfl, rfl, rfl, rfl, ?_⟩
  intro h
  have hb : (t == "") = false := by simp [h]
  exact ⟨by simp [get_client, clientInit, pyOrStr, strTruthy, hb, h], rfl⟩

/-- Claim C7 witness: with a credential in the environment the first call
constructs and stores the client and a second call reuses it. -/
theorem client_credential_and_reuse_witness :
    get_client (some "secret-key") none
      = .ok (⟨"secret-key", ⟨"secret-key"⟩⟩,
             some (⟨"secret-key", ⟨"secret-key"⟩⟩ : DeepLClient)) ∧
    get_client (some "secret-key")
        (some (⟨"secret-key", ⟨"secret-key"⟩⟩ : DeepLClient))
      = .ok (⟨"secret-key", ⟨"secret-key"⟩⟩,
             some (⟨"secret-key", ⟨"secret-key"⟩⟩ : DeepLClient)) :=
  (client_credential_and_reuse (some "secret-key") ⟨"x", ⟨"x"⟩⟩
    "secret-key").2.2.2.2.2 (by decide)

/-- Claim C8: `upload_document` normalizes a missing local document path to
status 404 and every vendor failure to 500; no other operation produces a
404 — the translation operations' failure statuses are never 404 and every
remaining operation maps all vendor failures to 500. -/
theorem upload_document_404_unique (document_path : String)
    (e : DeepLException) (f : Option String → String → VendorTextResult)
    (g : String → VendorTextResult) (input : TextInput) (split : String)
    (sourceLangs targetLangs : List VendorLanguage) (lt : String)
    (usage : VendorUsage) (gs : List VendorGlossary) (g0 : VendorGlossary)
    (gid did dkey text : String) (st : VendorDocumentStatus)
    (target : DownloadTarget) :
    (upload_document .fileNotFound document_path
       = .error ⟨404, "Document not found: " ++ document_path⟩) ∧
    (upload_document (.vendorError e) document_path = .error ⟨500, e.message⟩) ∧
    (errStatusOf (translate_text f (some e) input split) ≠ some 404) ∧
    (errStatusOf (translate_with_glossary g (some e) input) ≠ some 404) ∧
    (errStatusOf (list_languages sourceLangs targetLangs (some e) lt) = some 500) ∧
    (errStatusOf (get_usage usage (some e)) = some 500) ∧
    (errStatusOf (list_glossaries gs (some e)) = some 500) ∧
    (errStatusOf (create_glossary g0 (some e)) = some 500) ∧
    (errStatusOf (get_glossary g0 (some e)) = some 500) ∧
    (errStatusOf (delete_glossary gid (some e)) = some 500) ∧
    (errStatusOf (get_document_status (some e) did dkey st) = some 500) ∧
    (errStatusOf (download_translated_document (some e) did dkey target)
       = some 500) ∧
    (errStatusOf (detect_language (fun _ => .error e) text) = some 500) := by
  refine ⟨rfl, rfl, ?_, ?_, rfl, rfl, rfl, rfl, rfl, rfl, rfl, rfl, rfl⟩
  · cases e <;> simp [translate_text, errStatusOf]
  · cases e <;> simp [translate_with_glossary, errStatusOf]

/-- Claim C9: `detect_language` sends only the first 1000 characters of the
input to the vendor translation call (its result depends only on the
vendor's behaviour at `text.take 1000`); the returned text equals the input
when it has at most 100 characters and otherwise its first 100 characters
followed by `"..."`; every vendor failure maps to status 500. -/
theorem detect_language_truncation (text : String)
    (v w : String → Except DeepLException VendorTranslateResult)
    (r : VendorTranslateResult) (e : DeepLException) :
    (v (text.take 1000) = w (text.take 1000) →
       detect_language v text = detect_language w text) ∧
    (v (text.take 1000) = .ok r →
       detect_language v text
         = .ok ⟨detectedLangOf r,
                if text.length > 100 then text.take 100 ++ "..." else text⟩) ∧
    (v (text.take 1000) = .error e →
       detect_language v text = .error ⟨500, e.message⟩) := by
  refine ⟨?_, ?_, ?_⟩
  · intro h; simp [detect_language, h]
  · intro h; simp [detect_language, h]
  · intro h; simp [detect_language, h]

/-- Claim C9 witness: a failing vendor maps to 500 and a short input is
echoed untruncated. -/
theorem detect_language_truncation_witness :
    (detect_language (fun _ => .error (.other "boom")) "hola"
       = .error ⟨500, "boom"⟩) ∧
    (detect_language (fun s => .ok (.single ⟨some "EN", s⟩)) "hola"
       = .ok ⟨some "EN", "hola"⟩) := by
  constructor
  · exact (detect_language_truncation "hola" (fun _ => .error (.other "boom"))
      (fun _ => .error (.other "boom")) (.single ⟨none, ""⟩) (.other "boom")).2.2 rfl
  · rw [(detect_language_truncation "hola"
      (fun s => .ok (.single ⟨some "EN", s⟩))
      (fun s => .ok (.single ⟨some "EN", s⟩))
      (.single ⟨some "EN", String.take "hola" 1000⟩) (.other "x")).2.1 rfl]
    rfl

/-- Claim C10: a `split_sentences` argument outside `{"0", "1",
"nonewlines"}` is forwarded to the vendor as `none` (vendor default) and the
call still succeeds, while the three recognised values are forwarded
verbatim. -/
theorem split_sentences_unrecognized
    (f : Option String → String → VendorTextResult) (input : TextInput)
    (s : String) :
    (splitSentencesParam "0" = some "0") ∧
    (splitSentencesParam "1" = some "1") ∧
    (splitSentencesParam "nonewlines" = some "nonewlines") ∧
    (s ≠ "0" → s ≠ "1" → s ≠ "nonewlines" →
       splitSentencesParam s = none ∧
       translate_text f none input s
         = .ok ⟨normalizeTranslations (vendorTranslate (f none) input)⟩) := by
  refine ⟨rfl, rfl, rfl, ?_⟩
  intro h0 h1 h2
  constructor
  · simp [splitSentencesParam, h0, h1, h2]
  · simp [translate_text, splitSentencesParam, h0, h1, h2]

/-- Claim C10 witness: `split_sentences = "2"` is forwarded as `none` and
the translation succeeds. -/
theorem split_sentences_unrecognized_witness :
    splitSentencesParam "2" = none ∧
    translate_text (fun _ t => ⟨none, t⟩) none (.single "hi") "2"
      = .ok ⟨[⟨none, "hi"⟩]⟩ := by
  have h := (split_sentences_unrecognized (fun _ t => ⟨none, t⟩)
    (.single "hi") "2").2.2.2 (by decide) (by decide) (by decide)
  exact ⟨h.1, h.2.trans rfl⟩

end McpDeepl
